import Mathlib

/-!
Verification of `find_GeoNamesID.py`: a toponym-resolution script that queries
the GeoNames gazetteer, resolves country mentions first to build a per-article
country bias, resolves the remaining mentions with that bias (falling back to a
baseline query), and finally scores predicted ids against expected ids.

Modelling conventions:
* The external gazetteer (reached through `requests.get` + `response.json()`)
  is a parameter `gaz : Gaz`, a function from the query parameters the script
  puts in the URL to the decoded JSON body.
* A decoded body is `GeoResponse.empty` when `len(data) == 0`, and
  `GeoResponse.results l` when the body carries a `geonames` array `l`.
  (A non-empty body lacking the `geonames` key is outside the model.)
* A candidate's `geonameId` field is `Option Nat`: `none` means the field is
  absent, and reading it then models the Python `KeyError`.
* An uncaught Python exception is modelled by the value `none` of the
  surrounding `Option` result type.
* Python `float` division in the scoring function is modelled by exact
  rational (`ℚ`) arithmetic; a `ZeroDivisionError` is modelled by `none`.
-/

namespace GeoNames

/-- One entry of the `geonames` array of a searchJSON response.  `geonameId`
is `none` when the id field is absent (accessing it then models a Python
`KeyError`); `countryCode` is `none` when that optional field is absent. -/
structure Candidate where
  geonameId : Option Nat
  fcode : String
  countryCode : Option String
deriving DecidableEq

/-- A decoded JSON body: `empty` models `len(data) == 0`, `results l` models a
body whose `geonames` array is `l`. -/
inductive GeoResponse where
  | empty : GeoResponse
  | results : List Candidate → GeoResponse
deriving DecidableEq

/-- The query parameters the script encodes in the request URL: the place name
`q`, the optional `searchlang` tag, the optional bias/country string appended
to the URL (`none` for the country and baseline queries), and `maxRows`. -/
structure Query where
  q : String
  searchlang : Option String
  bias : Option String
  maxRows : Nat
deriving DecidableEq

/-- The external gazetteer collaborator: query parameters to decoded body. -/
abbrev Gaz := Query → GeoResponse

/-- URL built by `findID_baseline`: no `searchlang`, no bias, `maxRows=1`. -/
def baselineQuery (placeName : String) : Query :=
  ⟨placeName, none, none, 1⟩

/-- URL built by the biased branch of `findID` (`codes` truthy): `searchlang=nl`,
the codes string appended, `maxRows=1`. -/
def biasedQuery (placeName codes : String) : Query :=
  ⟨placeName, some "nl", some codes, 1⟩

/-- URL built by the country branch of `findID` (`codes=False`): `searchlang=nl`,
no bias, `maxRows=2`. -/
def countryQuery (placeName : String) : Query :=
  ⟨placeName, some "nl", none, 2⟩

/-- `findID_baseline(placeName)`: single-candidate, language-agnostic query;
returns 0 on an empty body or an empty `geonames` array, otherwise the first
candidate's `geonameId` (a missing id field raises `KeyError`, modelled by
`none`). -/
def findID_baseline (gaz : Gaz) (placeName : String) : Option Nat :=
  match gaz (baselineQuery placeName) with
  | .empty => some 0
  | .results [] => some 0
  | .results (result :: _) => result.geonameId

/-- Python's `s.startswith(p)`: `p` is a prefix of `s`.  Stated over the
character lists of the strings so that it evaluates by structural
recursion. -/
def strStartsWith (s p : String) : Bool :=
  p.data.isPrefixOf s.data

/-- The `for option in geodata` loop of the country branch of `findID`: scan
for the first candidate whose `fcode` starts with `"PCL"`; return its id and
its country code wrapped in a singleton list when present; `(0, [])` when no
candidate qualifies.  Reading a missing `geonameId` raises (`none`). -/
def scanPCL : List Candidate → Option (Nat × List String)
  | [] => some (0, [])
  | opt :: rest =>
    if strStartsWith opt.fcode "PCL" then
      match opt.geonameId with
      | none => none
      | some id => some (id, opt.countryCode.toList)
    else scanPCL rest

/-- The country branch of `findID(placeName)` (default `codes=False`): query
with `maxRows=2`; `(0, [])` on empty body or empty `geonames`; if the top
candidate's `fcode` is `"CONT"` return its id with no country code; otherwise
scan all candidates for the first political entity (`"PCL"` feature-code
family). -/
def findID_country (gaz : Gaz) (placeName : String) : Option (Nat × List String) :=
  match gaz (countryQuery placeName) with
  | .empty => some (0, [])
  | .results [] => some (0, [])
  | .results (firstOption :: rest) =>
    if firstOption.fcode == "CONT" then
      match firstOption.geonameId with
      | none => none
      | some id => some (id, [])
    else scanPCL (firstOption :: rest)

/-- The biased branch of `findID(placeName, codes)` with a truthy `codes`
string: query with `maxRows=1` and the codes string; 0 on an empty body;
fall back to `findID_baseline` when the `geonames` array is empty; otherwise
the top candidate's `geonameId` (the preceding `id = 0` in the source is a
dead store, so a missing id field raises `KeyError`, modelled by `none`). -/
def findID_biased (gaz : Gaz) (placeName codes : String) : Option Nat :=
  match gaz (biasedQuery placeName codes) with
  | .empty => some 0
  | .results [] => findID_baseline gaz placeName
  | .results (firstOption :: _) => firstOption.geonameId

/-- `makeString(codesList)`: build the URL fragment from the list of country
codes gathered in phase one.  The source takes `set(codesList)`; on two or
more distinct codes it returns inside the first iteration of a loop over that
set, so exactly one representative is emitted.  CPython leaves set iteration
order unspecified (it depends on per-process string-hash randomisation); the
model fixes one concrete order via `List.dedup`.  Every property proved below
about the multi-code case only asserts membership of the representative in the
set, so it is independent of this choice of order. -/
def makeString (codesList : List String) : String :=
  match codesList.dedup with
  | [] => "&countryBias=NL"
  | [_] => "&countryBias=" ++ codesList.headD ""
  | c :: _ :: _ => "&country=" ++ c

/-- Phase one of `processArticle`: for each toponym in order, run the country
resolution, collecting the predicted ids (in order) and concatenating the
returned country-code lists (`codes += countryCode`). -/
def phase1 (gaz : Gaz) : List String → Option (List Nat × List String)
  | [] => some ([], [])
  | t :: ts =>
    match findID_country gaz t, phase1 gaz ts with
    | some (id, cc), some (ids, codes) => some (id :: ids, cc ++ codes)
    | _, _ => none

/-- One row of phase two of `processArticle`: rows whose phase-one id is 0 are
re-resolved with the biased query (`processedData[processedData["predID"]==0]`);
rows with a nonzero phase-one id keep it untouched. -/
def phase2entry (gaz : Gaz) (codesURL : String) (toponym : String) (predID : Nat) :
    Option Nat :=
  if predID == 0 then findID_biased gaz toponym codesURL else some predID

/-- Phase two of `processArticle`, over the list of (toponym, phase-one id)
pairs. -/
def phase2 (gaz : Gaz) (codesURL : String) : List (String × Nat) → Option (List Nat)
  | [] => some []
  | p :: rest =>
    match phase2entry gaz codesURL p.1 p.2, phase2 gaz codesURL rest with
    | some v, some vs => some (v :: vs)
    | _, _ => none

/-- `processArticle(data)` restricted to its resolution effect: phase one over
all toponyms of the article, then `makeString` over the gathered codes, then
phase two over the rows whose id is still 0.  Returns the final predicted id
of each toponym, in order; `none` models an uncaught exception.  The
`lru_cache` memoisation of `findID` does not change returned values for a
fixed gazetteer, so this pure form uses the uncached resolvers; the caches are
modelled separately below. -/
def processArticle (gaz : Gaz) (toponyms : List String) : Option (List Nat) :=
  match phase1 gaz toponyms with
  | none => none
  | some (ids, codes) => phase2 gaz (makeString codes) (toponyms.zip ids)

/-- Association-list lookup (first match wins), used to model the
argument-tuple tables kept by `functools.lru_cache`. -/
def lookupKey {α β : Type} [DecidableEq α] : List (α × β) → α → Option β
  | [], _ => none
  | p :: rest, k => if p.1 = k then some p.2 else lookupKey rest k

/-- The memoisation state of one run: the `lru_cache` table of
`findID_baseline` (keyed by place name), and the `lru_cache` table of `findID`
split by the type of its second argument — country mode (`codes=False`, keyed
by place name) and biased mode (keyed by place name and codes string).
`maxsize=None`, so no eviction; `cache_clear()` at run end resets to
`initState`. -/
structure CacheState where
  baselineCache : List (String × Nat)
  countryCache : List (String × (Nat × List String))
  biasedCache : List ((String × String) × Nat)
deriving DecidableEq

/-- The empty caches at the start of a run (and after `cache_clear()`). -/
def initState : CacheState := ⟨[], [], []⟩

/-- `findID_baseline` through its `lru_cache` wrapper.  Returns the result,
the new cache state, and the number of external gazetteer calls made.  A hit
makes no external call; a miss makes one.  `lru_cache` does not store the
result of a call that raises, so the `none` outcome leaves the cache
unchanged. -/
def baselineCached (gaz : Gaz) (st : CacheState) (placeName : String) :
    Option Nat × CacheState × Nat :=
  match lookupKey st.baselineCache placeName with
  | some v => (some v, st, 0)
  | none =>
    match findID_baseline gaz placeName with
    | none => (none, st, 1)
    | some v => (some v, { st with baselineCache := (placeName, v) :: st.baselineCache }, 1)

/-- The country branch of `findID` through its `lru_cache` wrapper. -/
def countryCached (gaz : Gaz) (st : CacheState) (placeName : String) :
    Option (Nat × List String) × CacheState × Nat :=
  match lookupKey st.countryCache placeName with
  | some v => (some v, st, 0)
  | none =>
    match findID_country gaz placeName with
    | none => (none, st, 1)
    | some v => (some v, { st with countryCache := (placeName, v) :: st.countryCache }, 1)

/-- The biased branch of `findID` through its `lru_cache` wrapper.  On a miss
the body makes one external call; when that call yields an empty `geonames`
array the body invokes the cached `findID_baseline`, so the fallback may make
a second external call (or hit the baseline cache).  The value returned by
the body — including a value obtained through the fallback — is stored under
the biased key `(placeName, codes)`. -/
def biasedCached (gaz : Gaz) (st : CacheState) (placeName codes : String) :
    Option Nat × CacheState × Nat :=
  match lookupKey st.biasedCache (placeName, codes) with
  | some v => (some v, st, 0)
  | none =>
    match gaz (biasedQuery placeName codes) with
    | .empty =>
      (some 0, { st with biasedCache := ((placeName, codes), 0) :: st.biasedCache }, 1)
    | .results [] =>
      match baselineCached gaz st placeName with
      | (none, st1, n) => (none, st1, 1 + n)
      | (some v, st1, n) =>
        (some v, { st1 with biasedCache := ((placeName, codes), v) :: st1.biasedCache }, 1 + n)
    | .results (firstOption :: _) =>
      match firstOption.geonameId with
      | none => (none, st, 1)
      | some id =>
        (some id, { st with biasedCache := ((placeName, codes), id) :: st.biasedCache }, 1)

/-- A row of the scored dataframe: expected id (`geoID` column) and predicted
id (`predID` column). -/
structure ScoredRow where
  geoID : Nat
  predID : Nat
deriving DecidableEq

/-- The counting loop of `agreement`: first component `totalCorrect`
(`expID == predID`), second `notGuessed` (`elif predID == 0`). -/
def tallies (df : List ScoredRow) : Nat × Nat :=
  df.foldl
    (fun acc row =>
      if row.geoID == row.predID then (acc.1 + 1, acc.2)
      else if row.predID == 0 then (acc.1, acc.2 + 1)
      else acc)
    (0, 0)

/-- `totalCorrect` accumulated by the loop of `agreement`. -/
def totalCorrect (df : List ScoredRow) : Nat := (tallies df).1

/-- `notGuessed` accumulated by the loop of `agreement`. -/
def notGuessed (df : List ScoredRow) : Nat := (tallies df).2

/-- `totalGuessed = total - notGuessed` in `agreement`. -/
def totalGuessed (df : List ScoredRow) : Nat := df.length - notGuessed df

/-- The four values `agreement` prints.  The source calls the third value
`recall`; that word is a command keyword in this Lean environment, so the
field is named `recallVal`. -/
structure Metrics where
  total : Nat
  precision : ℚ
  recallVal : ℚ
  f1 : ℚ
deriving DecidableEq

/-- `agreement(df)`: count correct and not-guessed rows, then compute
precision, recall and f1 by unguarded division.  Each division of the source
is guarded here by the test for its `ZeroDivisionError` (modelled as `none`),
in source order: `totalCorrect / totalGuessed`, then `totalCorrect / total`,
then `(2*p*r) / (p + r)`.  The source's local variables `precision` and
`recall` are inlined.  Floats are modelled as exact rationals. -/
def agreement (df : List ScoredRow) : Option Metrics :=
  if totalGuessed df = 0 then none
  else if df.length = 0 then none
  else if (totalCorrect df : ℚ) / (totalGuessed df : ℚ) +
      (totalCorrect df : ℚ) / (df.length : ℚ) = 0 then none
  else some ⟨df.length,
    (totalCorrect df : ℚ) / (totalGuessed df : ℚ),
    (totalCorrect df : ℚ) / (df.length : ℚ),
    2 * ((totalCorrect df : ℚ) / (totalGuessed df : ℚ)) *
        ((totalCorrect df : ℚ) / (df.length : ℚ)) /
      ((totalCorrect df : ℚ) / (totalGuessed df : ℚ) +
        (totalCorrect df : ℚ) / (df.length : ℚ))⟩

/-! ## Helper lemmas about the scoring tallies -/

lemma foldl_tallies (df : List ScoredRow) : ∀ a b : Nat,
    df.foldl
      (fun acc row =>
        if row.geoID == row.predID then (acc.1 + 1, acc.2)
        else if row.predID == 0 then (acc.1, acc.2 + 1)
        else acc)
      (a, b) =
    (a + (df.filter fun r => r.geoID == r.predID).length,
     b + (df.filter fun r => !(r.geoID == r.predID) && r.predID == 0).length) := by
  induction df with
  | nil => intro a b; simp
  | cons r rest ih =>
    intro a b
    simp only [List.foldl_cons, List.filter_cons]
    by_cases h1 : r.geoID = r.predID
    · have hb : (r.geoID == r.predID) = true := by simp [h1]
      simp only [hb, Bool.not_true, Bool.false_and, if_true, if_false, List.length_cons, ih]
      simp [Prod.mk.injEq]
      try omega
    · have hb : (r.geoID == r.predID) = false := by simp [h1]
      by_cases h2 : r.predID = 0
      · have hb2 : (r.predID == 0) = true := by simp [h2]
        simp only [hb, hb2, Bool.not_false, Bool.true_and, if_true, if_false,
          List.length_cons, ih]
        simp [Prod.mk.injEq]
        try omega
      · have hb2 : (r.predID == 0) = false := by simp [h2]
        simp only [hb, hb2, Bool.not_false, Bool.true_and, if_false, ih]
        simp [Prod.mk.injEq]
        try omega

lemma tallies_eq (df : List ScoredRow) :
    tallies df = ((df.filter fun r => r.geoID == r.predID).length,
      (df.filter fun r => !(r.geoID == r.predID) && r.predID == 0).length) := by
  unfold tallies
  rw [foldl_tallies]
  simp

lemma totalCorrect_eq (df : List ScoredRow) :
    totalCorrect df = (df.filter fun r => r.geoID == r.predID).length := by
  rw [totalCorrect, tallies_eq]

lemma notGuessed_eq (df : List ScoredRow) :
    notGuessed df = (df.filter fun r => !(r.geoID == r.predID) && r.predID == 0).length := by
  rw [notGuessed, tallies_eq]

lemma notGuessed_le (df : List ScoredRow) : notGuessed df ≤ df.length := by
  rw [notGuessed_eq]
  exact List.length_filter_le _ _

/-! ## Claim C1 -/

/-- C1 counterexample: on a dataset where the only prediction is 0 (and
wrong), `agreement` raises `ZeroDivisionError` at the precision division
(modelled `none`) — it does not report a distinct "undefined" result; and on a
dataset with guesses but zero correct ones, the f1 division raises as well. -/
theorem agreement_crash_cex :
    agreement [⟨1, 0⟩] = none ∧ agreement [⟨1, 2⟩] = none := by
  constructor
  · decide
  · norm_num [agreement, totalGuessed, notGuessed, totalCorrect, tallies, List.foldl]

/-- C1 (amended): when `guessed == 0` the scoring operation crashes with
`ZeroDivisionError` at `precision = totalCorrect / totalGuessed` (modelled as
`none`) instead of reporting an "undefined — no guesses made" state; likewise
when `precision + recall == 0` the f1 division crashes instead of reporting
"undefined — zero precision and recall". -/
theorem agreement_divzero_raises :
    (∀ df : List ScoredRow, totalGuessed df = 0 → agreement df = none) ∧
    (∀ df : List ScoredRow, totalGuessed df ≠ 0 →
      (totalCorrect df : ℚ) / (totalGuessed df : ℚ) +
        (totalCorrect df : ℚ) / (df.length : ℚ) = 0 →
      agreement df = none) := by
  constructor
  · intro df h
    simp [agreement, h]
  · intro df h hsum
    have hlen : ¬df.length = 0 := by
      intro h0
      apply h
      have := notGuessed_le df
      unfold totalGuessed
      omega
    unfold agreement
    rw [if_neg h, if_neg hlen, if_pos hsum]

/-- C1 witness: the amended theorem applied at two concrete datasets, one
with no guesses, one with guesses but no correct prediction. -/
theorem agreement_divzero_raises_witness :
    agreement [⟨1, 0⟩, ⟨2, 0⟩] = none ∧ agreement [⟨1, 2⟩, ⟨3, 4⟩] = none := by
  constructor
  · exact agreement_divzero_raises.1 [⟨1, 0⟩, ⟨2, 0⟩] (by decide)
  · exact agreement_divzero_raises.2 [⟨1, 2⟩, ⟨3, 4⟩] (by decide)
      (by norm_num [totalGuessed, notGuessed, totalCorrect, tallies, List.foldl])

/-! ## Claim C8 -/

/-- C8 counterexample: on the dataset `[(0,0), (1,2)]` the code counts the
`(0,0)` row as correct, not as unresolved — only one row matches
`predID == 0` yet `notGuessed = 0`, so the claimed formula
`precision = correct / (total - #(predID == 0)) = 1/1 = 1` disagrees with the
computed precision `1/2`. -/
theorem agreement_unresolved_cex :
    agreement [⟨0, 0⟩, ⟨1, 2⟩] = some ⟨2, 1 / 2, 1 / 2, 1 / 2⟩ ∧
    (([⟨0, 0⟩, ⟨1, 2⟩] : List ScoredRow).filter fun r => r.predID == 0).length = 1 ∧
    notGuessed [⟨0, 0⟩, ⟨1, 2⟩] = 0 ∧
    (1 : ℚ) / ((2 - 1 : ℕ) : ℚ) = 1 ∧ ¬((1 : ℚ) / 2 = 1) := by
  refine ⟨?_, by decide, by decide, by norm_num, by norm_num⟩
  norm_num [agreement, totalGuessed, notGuessed, totalCorrect, tallies, List.foldl]

/-- C8 (amended): `correct` counts rows with `predictedID == expectedID`;
`unresolved` counts only rows with `predictedID == 0` *and*
`expectedID != predictedID` (the `elif` gives the equality check precedence);
`guessed = total - unresolved`; precision, recall and f1 follow the stated
formulas; and on the instance with total=10, correct=6, unresolved=2 the
result is guessed=8, precision=0.75, recall=0.6, f1=2/3 ≈ 0.667. -/
theorem agreement_formulas :
    (∀ df : List ScoredRow,
      totalCorrect df = (df.filter fun r => r.geoID == r.predID).length ∧
      notGuessed df = (df.filter fun r => !(r.geoID == r.predID) && r.predID == 0).length ∧
      totalGuessed df = df.length - notGuessed df) ∧
    (∀ df : List ScoredRow, totalGuessed df ≠ 0 → totalCorrect df ≠ 0 →
      agreement df = some ⟨df.length,
        (totalCorrect df : ℚ) / (totalGuessed df : ℚ),
        (totalCorrect df : ℚ) / (df.length : ℚ),
        2 * ((totalCorrect df : ℚ) / (totalGuessed df : ℚ)) *
            ((totalCorrect df : ℚ) / (df.length : ℚ)) /
          ((totalCorrect df : ℚ) / (totalGuessed df : ℚ) +
            (totalCorrect df : ℚ) / (df.length : ℚ))⟩) ∧
    agreement [⟨1, 1⟩, ⟨1, 1⟩, ⟨1, 1⟩, ⟨1, 1⟩, ⟨1, 1⟩, ⟨1, 1⟩,
        ⟨5, 0⟩, ⟨5, 0⟩, ⟨7, 9⟩, ⟨7, 9⟩] = some ⟨10, 3 / 4, 3 / 5, 2 / 3⟩ ∧
    |(2 : ℚ) / 3 - 667 / 1000| < 1 / 1000 := by
  refine ⟨fun df => ⟨totalCorrect_eq df, notGuessed_eq df, rfl⟩, ?_, ?_, by norm_num [abs]⟩
  · intro df hg hc
    have hlen : ¬df.length = 0 := by
      intro h0
      apply hg
      have := notGuessed_le df
      unfold totalGuessed
      omega
    have hgpos : (0 : ℚ) < (totalGuessed df : ℚ) := by
      exact_mod_cast Nat.pos_of_ne_zero hg
    have hlpos : (0 : ℚ) < (df.length : ℚ) := by
      exact_mod_cast Nat.pos_of_ne_zero hlen
    have hcpos : (0 : ℚ) < (totalCorrect df : ℚ) := by
      exact_mod_cast Nat.pos_of_ne_zero hc
    have hsum : ¬((totalCorrect df : ℚ) / (totalGuessed df : ℚ) +
        (totalCorrect df : ℚ) / (df.length : ℚ) = 0) := by
      have h1 : (0 : ℚ) < (totalCorrect df : ℚ) / (totalGuessed df : ℚ) :=
        div_pos hcpos hgpos
      have h2 : (0 : ℚ) < (totalCorrect df : ℚ) / (df.length : ℚ) :=
        div_pos hcpos hlpos
      positivity
    unfold agreement
    rw [if_neg hg, if_neg hlen, if_neg hsum]
  · norm_num [agreement, totalGuessed, notGuessed, totalCorrect, tallies, List.foldl]

/-- C8 witness: the formula conjunct of the amended theorem applied at a
concrete one-row dataset. -/
theorem agreement_formulas_witness :
    agreement [⟨1, 1⟩] = some ⟨1, 1, 1, 1⟩ := by
  have h := agreement_formulas.2.1 [⟨1, 1⟩] (by decide) (by decide)
  rw [h]
  norm_num [totalGuessed, notGuessed, totalCorrect, tallies, List.foldl]

/-! ## Claim C10 -/

/-- C10: a row whose expected and predicted ids are both 0 is counted as
correct and as guessed, not as unresolved: consing such a row increments
`totalCorrect` and `totalGuessed` and leaves `notGuessed` unchanged, because
the `elif predID == 0` branch is only reached when the equality check fails. -/
theorem agreement_bothzero_correct (df : List ScoredRow) (r : ScoredRow)
    (h0 : r.geoID = 0) (h1 : r.predID = 0) :
    totalCorrect (r :: df) = totalCorrect df + 1 ∧
    notGuessed (r :: df) = notGuessed df ∧
    totalGuessed (r :: df) = totalGuessed df + 1 ∧
    notGuessed df = (df.filter fun x => !(x.geoID == x.predID) && x.predID == 0).length := by
  have hle := notGuessed_le df
  have hc : totalCorrect (r :: df) = totalCorrect df + 1 := by
    rw [totalCorrect_eq, totalCorrect_eq, List.filter_cons]
    simp [h0, h1]
  have hn : notGuessed (r :: df) = notGuessed df := by
    rw [notGuessed_eq, notGuessed_eq, List.filter_cons]
    simp [h0, h1]
  refine ⟨hc, hn, ?_, notGuessed_eq df⟩
  unfold totalGuessed
  rw [hn]
  simp only [List.length_cons]
  omega

/-- C10 witness: the theorem applied at the one-row dataset `[(0,0)]`. -/
theorem agreement_bothzero_correct_witness :
    totalCorrect [(⟨0, 0⟩ : ScoredRow)] = totalCorrect [] + 1 ∧
    notGuessed [(⟨0, 0⟩ : ScoredRow)] = notGuessed [] ∧
    totalGuessed [(⟨0, 0⟩ : ScoredRow)] = totalGuessed [] + 1 ∧
    notGuessed ([] : List ScoredRow) =
      (([] : List ScoredRow).filter fun x => !(x.geoID == x.predID) && x.predID == 0).length :=
  agreement_bothzero_correct [] ⟨0, 0⟩ rfl rfl

/-! ## Helper lemmas about the PCL scan -/

lemma scanPCL_no_match : ∀ l : List Candidate,
    (∀ c ∈ l, strStartsWith c.fcode "PCL" = false) → scanPCL l = some (0, []) := by
  intro l
  induction l with
  | nil => intro _; rfl
  | cons c rest ih =>
    intro h
    have hc := h c (List.mem_cons_self _ _)
    simp only [scanPCL, hc, Bool.false_eq_true, if_false]
    exact ih fun x hx => h x (List.mem_cons_of_mem _ hx)

lemma scanPCL_first (pre : List Candidate) (c : Candidate) (post : List Candidate)
    (hpre : ∀ x ∈ pre, strStartsWith x.fcode "PCL" = false)
    (hc : strStartsWith c.fcode "PCL" = true) (id : Nat) (hid : c.geonameId = some id) :
    scanPCL (pre ++ c :: post) = some (id, c.countryCode.toList) := by
  induction pre with
  | nil =>
    simp only [List.nil_append, scanPCL, hc, if_true]
    rw [hid]
  | cons x xs ih =>
    have hx := hpre x (List.mem_cons_self _ _)
    simp only [List.cons_append, scanPCL, hx, Bool.false_eq_true, if_false]
    exact ih fun y hy => hpre y (List.mem_cons_of_mem _ hy)

/-! ## Claim C3 -/

/-- C3: the country resolution queries with `maxRows = 2`; an empty body or an
empty candidate list yields `(0, [])` without error; a top candidate of
feature class continent yields its id with no country code; otherwise the
candidates are scanned in order and the first whose feature code begins with
`"PCL"` yields its id together with its country code when that field is
present; when no candidate qualifies the result is `(0, [])`. -/
theorem findID_country_spec (gaz : Gaz) (t : String) :
    (countryQuery t).maxRows = 2 ∧
    (gaz (countryQuery t) = .empty → findID_country gaz t = some (0, [])) ∧
    (gaz (countryQuery t) = .results [] → findID_country gaz t = some (0, [])) ∧
    (∀ c cs id, gaz (countryQuery t) = .results (c :: cs) → c.fcode = "CONT" →
      c.geonameId = some id → findID_country gaz t = some (id, [])) ∧
    (∀ c cs pre x post id, gaz (countryQuery t) = .results (c :: cs) →
      c.fcode ≠ "CONT" → c :: cs = pre ++ x :: post →
      (∀ y ∈ pre, strStartsWith y.fcode "PCL" = false) →
      strStartsWith x.fcode "PCL" = true → x.geonameId = some id →
      findID_country gaz t = some (id, x.countryCode.toList)) ∧
    (∀ c cs, gaz (countryQuery t) = .results (c :: cs) → c.fcode ≠ "CONT" →
      (∀ y ∈ c :: cs, strStartsWith y.fcode "PCL" = false) →
      findID_country gaz t = some (0, [])) := by
  refine ⟨rfl, ?_, ?_, ?_, ?_, ?_⟩
  · intro h
    unfold findID_country
    rw [h]
  · intro h
    unfold findID_country
    rw [h]
  · intro c cs id h hcont hid
    unfold findID_country
    rw [h]
    have hb : (c.fcode == "CONT") = true := by simp [hcont]
    simp only [hb, if_true]
    rw [hid]
  · intro c cs pre x post id h hcont hsplit hpre hx hid
    unfold findID_country
    rw [h]
    have hb : (c.fcode == "CONT") = false := by simp [hcont]
    simp only [hb, Bool.false_eq_true, if_false]
    rw [hsplit]
    exact scanPCL_first pre x post hpre hx id hid
  · intro c cs h hcont hnone
    unfold findID_country
    rw [h]
    have hb : (c.fcode == "CONT") = false := by simp [hcont]
    simp only [hb, Bool.false_eq_true, if_false]
    exact scanPCL_no_match _ hnone

/-- Gazetteer used to witness C3: "Belgium" returns a populated place first
and the political entity second; "Europe" returns a continent. -/
def gazC3 : Gaz := fun q =>
  if q = countryQuery "Belgium" then
    .results [⟨some 1, "PPLC", some "XX"⟩, ⟨some 2933406, "PCLI", some "BE"⟩]
  else if q = countryQuery "Europe" then .results [⟨some 6255148, "CONT", none⟩]
  else .results []

/-- C3 witness: the theorem applied at `gazC3` — the second candidate (first
political entity) wins for "Belgium", the continent wins for "Europe", and an
unknown name yields `(0, [])`. -/
theorem findID_country_spec_witness :
    findID_country gazC3 "Belgium" = some (2933406, ["BE"]) ∧
    findID_country gazC3 "Europe" = some (6255148, []) ∧
    findID_country gazC3 "Narnia" = some (0, []) := by
  refine ⟨?_, ?_, ?_⟩
  · exact (findID_country_spec gazC3 "Belgium").2.2.2.2.1
      ⟨some 1, "PPLC", some "XX"⟩ [⟨some 2933406, "PCLI", some "BE"⟩]
      [⟨some 1, "PPLC", some "XX"⟩] ⟨some 2933406, "PCLI", some "BE"⟩ [] 2933406
      (by decide) (by decide) (by decide) (by decide) (by decide) (by decide)
  · exact (findID_country_spec gazC3 "Europe").2.2.2.1
      ⟨some 6255148, "CONT", none⟩ [] 6255148 (by decide) (by decide) (by decide)
  · exact (findID_country_spec gazC3 "Narnia").2.2.1 (by decide)

/-! ## Claim C4 -/

/-- C4: the biased resolution queries for exactly one candidate; when the
gazetteer returns an empty candidate list the result is exactly the result of
the unbiased, language-agnostic baseline resolution of the same text; when it
returns a candidate whose id field is present, that top candidate's id is
returned. -/
theorem findID_biased_fallback_spec (gaz : Gaz) (t codes : String) :
    (biasedQuery t codes).maxRows = 1 ∧
    (baselineQuery t).maxRows = 1 ∧
    (baselineQuery t).searchlang = none ∧
    (baselineQuery t).bias = none ∧
    (gaz (biasedQuery t codes) = .results [] →
      findID_biased gaz t codes = findID_baseline gaz t) ∧
    (∀ c cs id, gaz (biasedQuery t codes) = .results (c :: cs) →
      c.geonameId = some id → findID_biased gaz t codes = some id) := by
  refine ⟨rfl, rfl, rfl, rfl, ?_, ?_⟩
  · intro h
    unfold findID_biased
    rw [h]
  · intro c cs id h hid
    unfold findID_biased
    rw [h]
    exact hid

/-- Gazetteer used to witness C4: the biased query for "Atlantis" yields no
candidates, the baseline query yields id 42; the biased query for "Paris"
yields a candidate directly. -/
def gazC4 : Gaz := fun q =>
  if q = biasedQuery "Atlantis" "&countryBias=NL" then .results []
  else if q = baselineQuery "Atlantis" then .results [⟨some 42, "PPL", none⟩]
  else if q = biasedQuery "Paris" "&countryBias=FR" then
    .results [⟨some 2988507, "PPLC", some "FR"⟩]
  else .results []

/-- C4 witness: the theorem applied at `gazC4` — the empty biased response
falls back to the baseline value 42, and a non-empty biased response returns
the top candidate's id. -/
theorem findID_biased_fallback_spec_witness :
    findID_biased gazC4 "Atlantis" "&countryBias=NL" = findID_baseline gazC4 "Atlantis" ∧
    findID_biased gazC4 "Paris" "&countryBias=FR" = some 2988507 := by
  constructor
  · exact (findID_biased_fallback_spec gazC4 "Atlantis" "&countryBias=NL").2.2.2.2.1
      (by decide)
  · exact (findID_biased_fallback_spec gazC4 "Paris" "&countryBias=FR").2.2.2.2.2
      ⟨some 2988507, "PPLC", some "FR"⟩ [] 2988507 (by decide) (by decide)

/-! ## Claim C9 -/

/-- Gazetteer whose biased response has a top candidate lacking the id
field. -/
def gazC9 : Gaz := fun q =>
  if q = biasedQuery "X" "&countryBias=NL" then .results [⟨none, "PPL", none⟩]
  else .results []

/-- C9 counterexample: when the top candidate of a non-empty biased response
lacks the `geonameId` field the code raises `KeyError` (modelled `none`) —
it does not return 0. -/
theorem findID_biased_missing_id_cex :
    findID_biased gazC9 "X" "&countryBias=NL" = none ∧
    ¬findID_biased gazC9 "X" "&countryBias=NL" = some 0 := by
  constructor
  · decide
  · decide

/-- C9 (amended): when the biased response contains at least one candidate
the operation returns exactly the top candidate's id field: its value when
present, and a `KeyError` crash (modelled `none`) when absent — the `id = 0`
initialisation in the source is a dead store, so 0 is never returned for a
missing id field. -/
theorem findID_biased_top_candidate (gaz : Gaz) (t codes : String) (c : Candidate)
    (cs : List Candidate) (h : gaz (biasedQuery t codes) = .results (c :: cs)) :
    findID_biased gaz t codes = c.geonameId := by
  unfold findID_biased
  rw [h]

/-- Gazetteer whose biased response has a top candidate with id 99. -/
def gazC9b : Gaz := fun q =>
  if q = biasedQuery "Y" "&countryBias=NL" then .results [⟨some 99, "PPL", none⟩]
  else .results []

/-- C9 witness: the amended theorem applied at `gazC9b`. -/
theorem findID_biased_top_candidate_witness :
    findID_biased gazC9b "Y" "&countryBias=NL" = some 99 :=
  findID_biased_top_candidate gazC9b "Y" "&countryBias=NL"
    ⟨some 99, "PPL", none⟩ [] (by decide)

/-! ## Claim C5 -/

/-- C5: on an empty set of distinct codes the builder returns the
default-country directive (fallback "NL"); on exactly one distinct code, a
single-country bias directive carrying that code; on two or more distinct
codes, a restrict directive carrying exactly one representative member of the
set. -/
theorem makeString_spec (codesList : List String) :
    (codesList.dedup = [] → makeString codesList = "&countryBias=NL") ∧
    (∀ c, codesList.dedup = [c] → makeString codesList = "&countryBias=" ++ c) ∧
    (2 ≤ codesList.dedup.length →
      ∃ c, c ∈ codesList.dedup ∧ makeString codesList = "&country=" ++ c) := by
  refine ⟨?_, ?_, ?_⟩
  · intro h
    unfold makeString
    rw [h]
  · intro c h
    have hne : codesList ≠ [] := by
      intro h0
      rw [h0] at h
      simp at h
    have hall : ∀ x ∈ codesList, x = c := by
      intro x hx
      have hmem : x ∈ codesList.dedup := List.mem_dedup.mpr hx
      rw [h] at hmem
      simpa using hmem
    obtain ⟨y, ys, rfl⟩ := List.exists_cons_of_ne_nil hne
    have hy : y = c := hall y (List.mem_cons_self _ _)
    unfold makeString
    rw [h]
    simp [hy]
  · intro h2
    rcases hd : codesList.dedup with _ | ⟨c, _ | ⟨d, rest⟩⟩
    · rw [hd] at h2
      simp at h2
    · rw [hd] at h2
      simp at h2
    · refine ⟨c, List.mem_cons_self _ _, ?_⟩
      unfold makeString
      rw [hd]

/-- C5 witness: the theorem applied at concrete code lists for the empty and
the single-distinct-code cases, plus the two-code case evaluated directly on
the model. -/
theorem makeString_spec_witness :
    makeString [] = "&countryBias=NL" ∧ makeString ["US", "US"] = "&countryBias=US" := by
  constructor
  · exact (makeString_spec []).1 (by decide)
  · exact (makeString_spec ["US", "US"]).2.1 "US" (by decide)

/-! ## Helper lemmas about the two-pass article processor -/

lemma phase1_length (gaz : Gaz) : ∀ (ts : List String) (ids : List Nat) (codes : List String),
    phase1 gaz ts = some (ids, codes) → ids.length = ts.length := by
  intro ts
  induction ts with
  | nil =>
    intro ids codes h
    simp only [phase1] at h
    cases h
    rfl
  | cons t rest ih =>
    intro ids codes h
    simp only [phase1] at h
    cases hc : findID_country gaz t with
    | none => rw [hc] at h; simp at h
    | some p =>
      cases hr : phase1 gaz rest with
      | none => rw [hc, hr] at h; simp at h
      | some q =>
        rw [hc, hr] at h
        cases h
        simp [ih q.1 q.2 (by rw [hr])]

lemma phase2_get (gaz : Gaz) (codesURL : String) :
    ∀ (l : List (String × Nat)) (final : List Nat),
      phase2 gaz codesURL l = some final →
      ∀ i t v, l.get? i = some (t, v) → v ≠ 0 → final.get? i = some v := by
  intro l
  induction l with
  | nil =>
    intro final _ i t v hi
    simp at hi
  | cons p rest ih =>
    intro final h i t v hi hv
    simp only [phase2] at h
    cases he : phase2entry gaz codesURL p.1 p.2 with
    | none => rw [he] at h; simp at h
    | some w =>
      cases hr : phase2 gaz codesURL rest with
      | none => rw [he, hr] at h; simp at h
      | some ws =>
        rw [he, hr] at h
        cases h
        cases i with
        | zero =>
          simp only [List.get?] at hi
          cases hi
          have : phase2entry gaz codesURL t v = some v := by
            unfold phase2entry
            have hb : (v == 0) = false := by simp [hv]
            rw [hb]
            simp
          rw [this] at he
          cases he
          rfl
        | succ j =>
          simp only [List.get?] at hi ⊢
          exact ih ws hr j t v hi hv

/-! ## Claim C2 -/

/-- C2: a mention resolved in phase one (nonzero id) is never overwritten in
phase two — its final id equals its phase-one id — and phase two leaves any
row with a nonzero phase-one id untouched without consulting the gazetteer
(`phase2entry` returns the id unchanged for every gazetteer). -/
theorem processArticle_phase1_never_overwritten :
    (∀ (gaz : Gaz) (toponyms : List String) (ids : List Nat) (codes : List String)
      (final : List Nat) (i : Nat) (v : Nat),
      phase1 gaz toponyms = some (ids, codes) →
      processArticle gaz toponyms = some final →
      ids.get? i = some v → v ≠ 0 → final.get? i = some v) ∧
    (∀ (gaz : Gaz) (codesURL toponym : String) (predID : Nat),
      predID ≠ 0 → phase2entry gaz codesURL toponym predID = some predID) := by
  constructor
  · intro gaz toponyms ids codes final i v h1 hp hi hv
    unfold processArticle at hp
    rw [h1] at hp
    have hlen : ids.length = toponyms.length := phase1_length gaz toponyms ids codes h1
    have hlt : i < ids.length := by
      by_contra hge
      rw [List.get?_eq_none.mpr (Nat.le_of_not_lt hge)] at hi
      cases hi
    obtain ⟨t, ht⟩ : ∃ t, toponyms.get? i = some t := by
      have hlt2 : i < toponyms.length := by omega
      exact ⟨toponyms.get ⟨i, hlt2⟩, List.get?_eq_get hlt2⟩
    have hzip : (toponyms.zip ids).get? i = some (t, v) :=
      (List.get?_zip_eq_some _ _ _ _).mpr ⟨ht, hi⟩
    exact phase2_get gaz (makeString codes) (toponyms.zip ids) final hp i t v hzip hv
  · intro gaz codesURL toponym predID h
    unfold phase2entry
    have hb : (predID == 0) = false := by simp [h]
    rw [hb]
    simp

/-- Gazetteer used to witness C2: "Belgium" resolves in phase one; phase two
would resolve any remaining mention to 555, but must not touch "Belgium". -/
def gazC2 : Gaz := fun q =>
  if q = countryQuery "Belgium" then
    .results [⟨some 2933406, "PCLI", some "BE"⟩]
  else if q.bias = some "&countryBias=BE" then .results [⟨some 555, "PPL", none⟩]
  else .results []

/-- C2 witness: the theorem applied at `gazC2` on the article
["Belgium", "Springfield"]: the phase-one id of "Belgium" survives to the
final output even though the phase-two resolver would return 555. -/
theorem processArticle_phase1_never_overwritten_witness :
    ([2933406, 555] : List Nat).get? 0 = some 2933406 ∧
    processArticle gazC2 ["Belgium", "Springfield"] = some [2933406, 555] := by
  constructor
  · exact processArticle_phase1_never_overwritten.1 gazC2 ["Belgium", "Springfield"]
      [2933406, 0] ["BE"] [2933406, 555] 0 2933406 (by decide) (by decide)
      (by decide) (by decide)
  · decide

/-! ## Helper lemma about cache lookup -/

lemma lookupKey_cons_self {α β : Type} [DecidableEq α] (k : α) (v : β) (l : List (α × β)) :
    lookupKey ((k, v) :: l) k = some v := by
  simp [lookupKey]

/-! ## Claim C7 -/

/-- Gazetteer used for C7: every biased query misses (empty candidate list),
every other query returns a candidate with id 7.  The biased resolution of
any name therefore takes the baseline-fallback path. -/
def gazC7 : Gaz := fun q =>
  if q.bias.isSome then .results [] else .results [⟨some 7, "PPL", none⟩]

/-- The cache state after resolving ("X", "&countryBias=NL") once under
`gazC7`: the baseline cache and the biased cache each hold one entry. -/
def stC7 : CacheState := ⟨[("X", 7)], [], [(("X", "&countryBias=NL"), 7)]⟩

/-- C7 counterexample: the first resolution of ("X", "&countryBias=NL") under
`gazC7` issues two external calls (the biased query plus the baseline
fallback), so resolving the pair twice issues 2 external calls in total, not
at most one; the results of the two resolutions are nevertheless identical
and the second issues none. -/
theorem biasedCached_two_calls_cex :
    biasedCached gazC7 initState "X" "&countryBias=NL" = (some 7, stC7, 2) ∧
    biasedCached gazC7 stC7 "X" "&countryBias=NL" = (some 7, stC7, 0) ∧
    ¬(2 + 0 ≤ 1) := by
  refine ⟨by decide, by decide, by decide⟩

/-- C7 (amended): a cache key that has been seen (successfully) before never
triggers a new external lookup within the same run: after a resolution
returns a value, resolving the same key again issues zero external calls,
returns the identical value, and leaves the cache unchanged — for the
baseline cache, the country cache, and the biased cache.  (The first
resolution of a biased key may itself issue up to two external calls when it
falls back to the baseline query, so "at most one external call" holds per
distinct cache key, not per (text, bias) resolution.) -/
theorem cached_idempotent :
    (∀ (gaz : Gaz) (st : CacheState) (t : String) (v : Nat) (st' : CacheState) (n : Nat),
      baselineCached gaz st t = (some v, st', n) →
      baselineCached gaz st' t = (some v, st', 0)) ∧
    (∀ (gaz : Gaz) (st : CacheState) (t : String) (v : Nat × List String)
      (st' : CacheState) (n : Nat),
      countryCached gaz st t = (some v, st', n) →
      countryCached gaz st' t = (some v, st', 0)) ∧
    (∀ (gaz : Gaz) (st : CacheState) (t codes : String) (v : Nat) (st' : CacheState) (n : Nat),
      biasedCached gaz st t codes = (some v, st', n) →
      biasedCached gaz st' t codes = (some v, st', 0)) := by
  refine ⟨?_, ?_, ?_⟩
  · intro gaz st t v st' n h
    unfold baselineCached at h ⊢
    cases hl : lookupKey st.baselineCache t with
    | some w =>
      rw [hl] at h
      simp only [Prod.mk.injEq, Option.some.injEq] at h
      obtain ⟨hv, hst, -⟩ := h
      subst hst
      rw [hl, hv]
    | none =>
      rw [hl] at h
      cases hf : findID_baseline gaz t with
      | none => rw [hf] at h; simp at h
      | some w =>
        rw [hf] at h
        simp only [Prod.mk.injEq, Option.some.injEq] at h
        obtain ⟨hv, hst, -⟩ := h
        subst hst
        simp [lookupKey_cons_self, hv]
  · intro gaz st t v st' n h
    unfold countryCached at h ⊢
    cases hl : lookupKey st.countryCache t with
    | some w =>
      rw [hl] at h
      simp only [Prod.mk.injEq, Option.some.injEq] at h
      obtain ⟨hv, hst, -⟩ := h
      subst hst
      rw [hl, hv]
    | none =>
      rw [hl] at h
      cases hf : findID_country gaz t with
      | none => rw [hf] at h; simp at h
      | some w =>
        rw [hf] at h
        simp only [Prod.mk.injEq, Option.some.injEq] at h
        obtain ⟨hv, hst, -⟩ := h
        subst hst
        simp [lookupKey_cons_self, hv]
  · intro gaz st t codes v st' n h
    unfold biasedCached at h ⊢
    cases hl : lookupKey st.biasedCache (t, codes) with
    | some w =>
      rw [hl] at h
      simp only [Prod.mk.injEq, Option.some.injEq] at h
      obtain ⟨hv, hst, -⟩ := h
      subst hst
      rw [hl, hv]
    | none =>
      rw [hl] at h
      cases hr : gaz (biasedQuery t codes) with
      | empty =>
        rw [hr] at h
        simp only [Prod.mk.injEq, Option.some.injEq] at h
        obtain ⟨hv, hst, -⟩ := h
        subst hst
        simp [lookupKey_cons_self, hv]
      | results geodata =>
        cases geodata with
        | nil =>
          rw [hr] at h
          rcases hb : baselineCached gaz st t with ⟨r, st1, n1⟩
          rw [hb] at h
          cases r with
          | none => simp at h
          | some w =>
            simp only [Prod.mk.injEq, Option.some.injEq] at h
            obtain ⟨hv, hst, -⟩ := h
            subst hst
            simp [lookupKey_cons_self, hv]
        | cons c cs =>
          rw [hr] at h
          dsimp only at h
          cases hid : c.geonameId with
          | none => rw [hid] at h; simp at h
          | some w =>
            rw [hid] at h
            simp only [Prod.mk.injEq, Option.some.injEq] at h
            obtain ⟨hv, hst, -⟩ := h
            subst hst
            simp [lookupKey_cons_self, hv]

/-- The cache state after one baseline resolution of "X" under `gazC7`. -/
def stC7b : CacheState := ⟨[("X", 7)], [], []⟩

/-- C7 witness: the amended theorem applied at `gazC7` after one concrete
baseline resolution of "X". -/
theorem cached_idempotent_witness :
    baselineCached gazC7 stC7b "X" = (some 7, stC7b, 0) :=
  cached_idempotent.1 gazC7 initState "X" 7 stC7b 1 (by decide)

end GeoNames
